import Mathlib

/-!
Shallow embedding of the aframe-sora-demo control plane (Manager + Raspberry
Pi Bridge) and proofs about it.

Conventions used throughout:
* Python floats are modelled as real numbers (`ℝ`) on the Manager side, where
  the yaw-wrapping invariant mentions `π`, and as rational numbers (`ℚ`) on
  the Bridge side, where every claim is about exact finite arithmetic.
* Fallible Python code (code that can raise) is modelled with `Except`.
* `None` becomes `Option.none`; Python truthiness is translated at each use
  site (a dataclass instance is always truthy, the empty string is falsy).
* Dictionaries with a fixed key set become structures; absent keys become
  `Option` fields.
-/

namespace AframeSora


/-- Python's `str.upper()` restricted to ASCII, as an executable function
(`String.toUpper` does not reduce in the kernel).  Every command string the
preset tables compare against is ASCII. -/
def pyUpperChar (c : Char) : Char :=
  if 'a' ≤ c ∧ c ≤ 'z' then Char.ofNat (c.toNat - 32) else c

/-- `s.upper()` on a Python string: uppercase each character. -/
def pyUpper (s : String) : String := ⟨s.data.map pyUpperChar⟩

/-- `clamp` from `src/server/domain/control.py` (`low if value < low else
high if value > high else value`).  The Python function is duck-typed, so it
is modelled polymorphically over a linear order. -/
def clamp {α : Type} [LinearOrder α] (value low high : α) : α :=
  if value < low then low else if high < value then high else value

/-- Modelled from the spec: `CTRL_HOLD_SEC` is imported from
`src/server/domain/constants.py`, a file absent from the source snapshot;
spec §4.1 gives 0.2 s. -/
def CTRL_HOLD_SEC : ℝ := 0.2

/-- Modelled from the spec: `CTRL_DAMP_SEC` is imported from
`src/server/domain/constants.py`, a file absent from the source snapshot;
spec §4.1 gives 1.0 s. -/
def CTRL_DAMP_SEC : ℝ := 1.0

/-- Modelled from the spec: `PHYSICS_RATE_HZ` is imported from
`src/server/domain/constants.py`, a file absent from the source snapshot;
spec §4.1 gives 60 Hz. -/
def PHYSICS_RATE_HZ : ℝ := 60

/-- Modelled from the spec: `IDLE_STATE_INTERVAL_SEC` is imported from
`src/server/domain/constants.py`, a file absent from the source snapshot;
spec §4.3 gives 5.0 s. -/
def IDLE_STATE_INTERVAL_SEC : ℝ := 5.0

/-- `ControlSnapshot` from `src/server/domain/control.py`.

The copy of the dataclass in `control.py` lists seven fields; its two in-repo
consumers (`conductor_handlers.py`, which constructs it with a
`manager_recv_at_ms=` keyword, and `state_payload.py`, which reads
`snapshot.manager_recv_at_ms`) and the spec's data model (§3) all include the
optional Manager-ingress timestamp, so the field is included here. -/
structure ControlSnapshot where
  seq : ℤ
  throttle : ℝ
  steer : ℝ
  brake : ℝ
  mode : String
  received_at : ℝ
  client_timestamp_ms : Option ℤ
  manager_recv_at_ms : Option ℤ

/-- `ControlSnapshot.age` from `src/server/domain/control.py`. -/
def ControlSnapshot.age (c : ControlSnapshot) (now : ℝ) : ℝ :=
  now - c.received_at

/-! ## Control State Store (`src/server/services/conductor_state.py`) -/

/-- The three fields guarded by `ControlState._lock` in
`src/server/services/conductor_state.py`. -/
structure ControlStateData where
  last_ctrl : Option ControlSnapshot
  last_ctrl_latency_ms : Option ℝ
  last_ctrl_recv_wall : Option ℝ

/-- `ControlState.__init__`: all three fields start as `None`. -/
def ControlState.init : ControlStateData := ⟨none, none, none⟩

/-- `ControlState.update_if_new` from
`src/server/services/conductor_state.py`.  Python's
`if self._last_ctrl and snapshot.seq <= self._last_ctrl.seq` tests
truthiness of the stored dataclass, i.e. whether a snapshot is stored at
all.  Returns the boolean result together with the post state. -/
def update_if_new (st : ControlStateData) (snapshot : ControlSnapshot)
    (latency_ms recv_wall : Option ℝ) : Bool × ControlStateData :=
  match st.last_ctrl with
  | some cur =>
      if snapshot.seq ≤ cur.seq then (false, st)
      else (true, ⟨some snapshot, latency_ms, recv_wall⟩)
  | none => (true, ⟨some snapshot, latency_ms, recv_wall⟩)

/-! ## Vehicle Model (`src/server/domain/vehicle.py`) -/

namespace VehicleModel

/-- `VehicleModel.MAX_SPEED` (m/s). -/
def MAX_SPEED : ℝ := 20.0

/-- `VehicleModel.MAX_ACCEL` (m/s²). -/
def MAX_ACCEL : ℝ := 9.0

/-- `VehicleModel.BRAKE_DECEL`. -/
def BRAKE_DECEL : ℝ := 14.0

/-- `VehicleModel.COAST_DECEL`. -/
def COAST_DECEL : ℝ := 2.0

/-- `VehicleModel.IDLE_DECEL`. -/
def IDLE_DECEL : ℝ := 1.5

/-- `VehicleModel.YAW_RATE_MAX` (rad/s). -/
def YAW_RATE_MAX : ℝ := 2.5

/-- `VehicleModel.YAW_SLEW` (rad/s²). -/
def YAW_SLEW : ℝ := 6.0

/-- `VehicleModel.ANGULAR_DAMP`. -/
def ANGULAR_DAMP : ℝ := 4.0

end VehicleModel

/-- The mutable attributes of `VehicleModel` from
`src/server/domain/vehicle.py`.  `_last_ctrl_age` is `float("inf")` until a
step sees a control snapshot; the infinite value is modelled as `none`. -/
structure VehicleState where
  x : ℝ
  y : ℝ
  z : ℝ
  yaw : ℝ
  vx : ℝ
  wz : ℝ
  last_dt : ℝ
  last_ctrl_age : Option ℝ
  estop_active : Bool

/-- `VehicleModel.__init__`. -/
noncomputable def VehicleModel.init : VehicleState :=
  ⟨0, 0, 0, 0, 0, 0, 1 / PHYSICS_RATE_HZ, none, false⟩

/-- `wrap_angle` from `src/server/domain/control.py`.  The Python body is a
pair of loops (`while rad > pi: rad -= tau; while rad <= -pi: rad += tau`)
whose result is the unique representative of `rad` modulo `2π` in the
half-open interval `(-π, π]`; `toIocMod` computes exactly that
representative (see `wrap_angle_eq_loop_spec` below). -/
noncomputable def wrap_angle (rad : ℝ) : ℝ :=
  toIocMod Real.two_pi_pos (-Real.pi) rad

/-- `math.copysign(x, y)` as used in `VehicleModel.step`: the magnitude of
`x` carrying the sign of `y`.  Every use site is guarded by
`abs(self.vx) > 1e-3`, so the sign of `y` is never taken at `y = 0` and the
signed-zero subtlety of floats does not arise. -/
noncomputable def copysign (x y : ℝ) : ℝ :=
  if y < 0 then -|x| else |x|

/-- The effective command of `VehicleModel.step` (lines 36–49 of
`src/server/domain/vehicle.py`, factored out): raw values while the
snapshot's age is within `CTRL_HOLD_SEC`, then linearly decayed throttle and
steer with the brake ramped up by the decay.  Also records the age that
`step` stores into `_last_ctrl_age` (`none` = `float("inf")`). -/
noncomputable def effective_ctrl (ctrl : Option ControlSnapshot) (now : ℝ) :
    ℝ × ℝ × ℝ × Option ℝ :=
  match ctrl with
  | none => (0, 0, 0, none)
  | some c =>
      let age := c.age now
      if age ≤ CTRL_HOLD_SEC then (c.throttle, c.steer, c.brake, some age)
      else
        let decay := clamp ((age - CTRL_HOLD_SEC) / CTRL_DAMP_SEC) 0 1
        (c.throttle * (1 - decay), c.steer * (1 - decay),
          max c.brake decay, some age)

/-- `VehicleModel.step` from `src/server/domain/vehicle.py`.

Notes on the translation:
* `if ctrl:` tests truthiness of the dataclass, i.e. `Option.isSome`.
* `math.isclose(throttle, 0.0, abs_tol=1e-3)` is equivalent to
  `|throttle| ≤ 1e-3` (the relative tolerance `1e-9·|throttle|` is below the
  absolute one whenever it matters).
* The source updates `self.vx` before the angular and pose sections, so the
  pose integral uses the new `vx` and the new `wz`, as below. -/
noncomputable def VehicleModel.step (s : VehicleState)
    (ctrl : Option ControlSnapshot) (dt now : ℝ) : VehicleState :=
  let e := effective_ctrl ctrl now
  let throttle := if s.estop_active then 0 else e.1
  let steer := e.2.1
  let brake := if s.estop_active then 1 else e.2.2.1
  let accel := throttle * MAX_ACCEL
  let accel :=
    if |throttle| ≤ 1e-3 then
      if |s.vx| > 1e-3 then accel - copysign COAST_DECEL s.vx else 0
    else accel
  let accel :=
    if brake > 0 ∧ |s.vx| > 1e-3 then accel - copysign (BRAKE_DECEL * brake) s.vx
    else accel
  let accel :=
    if ctrl.isNone ∧ ¬s.estop_active ∧ |s.vx| > 1e-3 then
      accel - copysign IDLE_DECEL s.vx
    else accel
  let vx0 := if ctrl.isNone ∧ ¬s.estop_active ∧ ¬(|s.vx| > 1e-3) then 0 else s.vx
  let vx1 := vx0 + accel * dt
  let vx2 := if |vx1| < 1e-3 then 0 else vx1
  let vx3 := clamp vx2 (-MAX_SPEED) MAX_SPEED
  let target_wz := steer * YAW_RATE_MAX
  let slew := YAW_SLEW * dt
  let wz1 :=
    if ctrl.isSome then s.wz + clamp (target_wz - s.wz) (-slew) slew
    else s.wz * (1 - clamp (ANGULAR_DAMP * dt) 0 1)
  let wz2 := if |wz1| < 1e-3 then 0 else wz1
  let yaw_now := wrap_angle (s.yaw + wz2 * dt)
  { x := s.x + vx3 * Real.sin yaw_now * dt
    y := s.y
    z := s.z + vx3 * Real.cos yaw_now * dt
    yaw := yaw_now
    vx := vx3
    wz := wz2
    last_dt := dt
    last_ctrl_age := e.2.2.2
    estop_active := s.estop_active }

/-- `VehicleModel.estop`: latch the flag and zero both velocities. -/
def VehicleModel.estop (s : VehicleState) : VehicleState :=
  { s with estop_active := true, vx := 0, wz := 0 }

/-- `VehicleModel.clear_estop`. -/
def VehicleModel.clear_estop (s : VehicleState) : VehicleState :=
  { s with estop_active := false }

/-! ### Basic facts about `clamp` -/

/-- The failing input for C1: a full-steer snapshot delivered while the
vehicle is estopped (snapshot received at `t = 0`, stepped at `t = 0` with
`dt = 1/60`). -/
def c1_ctrl : ControlSnapshot := ⟨1, 0, 1, 0, "arcade", 0, none, none⟩

/-- The vehicle state right after `estop()` from the initial state. -/
noncomputable def c1_after_estop : VehicleState :=
  VehicleModel.estop VehicleModel.init

/-- One `step` after `estop()` with the full-steer snapshot. -/
noncomputable def c1_after_step : VehicleState :=
  VehicleModel.step c1_after_estop (some c1_ctrl) (1 / 60) 0

/-- A stored snapshot with `seq = 5` for the C3 witness. -/
def c3_snap5 : ControlSnapshot := ⟨5, 0, 0, 0, "arcade", 0, none, none⟩

/-- An incoming snapshot with `seq = 6` for the C3 witness. -/
def c3_snap6 : ControlSnapshot := ⟨6, 1, 0, 0, "arcade", 2, some 100, some 200⟩

/-- A control store already holding the `seq = 5` snapshot. -/
def c3_state : ControlStateData := ⟨some c3_snap5, none, none⟩

/-! ## Bridge command converter (`src/rpi/bridge/converter.py`)

The Bridge never touches `π`, so its floats are modelled as rationals,
keeping every definition executable. -/

namespace Bridge

/-- `_clamp` from `src/rpi/bridge/converter.py` (same ternary chain as the
server's `clamp`). -/
def clamp (value low high : ℚ) : ℚ :=
  if value < low then low else if high < value then high else value

/-- `COMMAND_PRESETS` from `src/rpi/bridge/converter.py`: the Bridge's own
command → `(throttle, steer, brake)` table, as a lookup function
(`dict.get`). -/
def COMMAND_PRESETS (key : String) : Option (ℚ × ℚ × ℚ) :=
  if key = "IDLE" then some (0, 0, 2/5)
  else if key = "UP" then some (1, 0, 0)
  else if key = "DOWN" then some (-1, 0, 0)
  else if key = "LEFT" then some (0, -1, 0)
  else if key = "RIGHT" then some (0, 1, 0)
  else none

/-- The three configuration fields of the `CommandConverter` dataclass. -/
structure CommandConverter where
  max_linear_speed : ℚ
  max_angular_speed : ℚ
  brake_threshold : ℚ

/-- `CommandConverter.to_velocity` from `src/rpi/bridge/converter.py`.

Translation notes:
* the keyword defaults `throttle=None` etc. become `Option ℚ` with
  `Option.getD 0` for the `x if x is not None else 0.0` normalisation;
* `if command:` is Python truthiness on an optional string: it enters the
  branch only for a present, non-empty string;
* `preset = COMMAND_PRESETS.get(command.upper()); if preset:` — a 3-tuple is
  always truthy, so `if preset:` is a `None` test. -/
def CommandConverter.to_velocity (conv : CommandConverter)
    (command : Option String) (throttle steer brake : Option ℚ)
    (estop_active : Bool) : ℚ × ℚ :=
  let throttle_val := throttle.getD 0
  let steer_val := steer.getD 0
  let brake_val := brake.getD 0
  let vals : ℚ × ℚ × ℚ :=
    match command with
    | some cmd =>
        if cmd ≠ "" then
          match COMMAND_PRESETS (pyUpper cmd) with
          | some preset => preset
          | none => (throttle_val, steer_val, brake_val)
        else (throttle_val, steer_val, brake_val)
    | none => (throttle_val, steer_val, brake_val)
  if estop_active = true ∨ conv.brake_threshold ≤ vals.2.2 then (0, 0)
  else (clamp vals.1 (-1) 1 * conv.max_linear_speed,
        clamp vals.2.1 (-1) 1 * conv.max_angular_speed)

/-- The effective `(throttle, steer, brake)` triple in the words of the
spec: taken from the recognised preset when a command string is given,
otherwise the raw keyword values with absent fields treated as 0.  Stated
separately from `to_velocity` so the claim compares the code against the
spec's description rather than against itself. -/
def spec_effective_triple (command : Option String)
    (throttle steer brake : Option ℚ) : ℚ × ℚ × ℚ :=
  match command with
  | some cmd =>
      match COMMAND_PRESETS (pyUpper cmd) with
      | some preset => preset
      | none => (throttle.getD 0, steer.getD 0, brake.getD 0)
  | none => (throttle.getD 0, steer.getD 0, brake.getD 0)

end Bridge

/-! ## Bridge command subscriber (`src/rpi/bridge/subscriber.py`) -/

namespace Bridge

/-- The configuration of `CommandSubscriber` (constructor arguments held for
the lifetime of the object). -/
structure CommandSubscriber where
  converter : CommandConverter
  command_timeout_sec : ℚ

/-- The mutable fields of `CommandSubscriber` guarded by `self._lock`. -/
structure SubscriberState where
  last_seq : Option ℤ
  last_publish_wall : ℚ

/-- `CommandSubscriber.__init__`: `_last_seq = None`,
`_last_publish_wall = 0.0`. -/
def SubscriberState.init : SubscriberState := ⟨none, 0⟩

/-- A decoded UI → RPi ctrl payload as read by `process_ctrl_payload`:
`seq` when present and an `int`, `command` when present and a `str`, the
nested `cmd` numeric fields (`cmd_obj.get(k) or 0.0` treats an absent
key as 0), and the truthiness of `estop`. -/
structure CtrlPayload where
  seq : Option ℤ
  command : Option String
  cmd_throttle : Option ℚ
  cmd_steer : Option ℚ
  cmd_brake : Option ℚ
  estop : Bool

/-- `CommandSubscriber.process_ctrl_payload` from
`src/rpi/bridge/subscriber.py`: record `seq` when it is an integer, convert
through `to_velocity`, publish the pair unconditionally, and stamp
`_last_publish_wall` with the current wall time.  The published pair is
returned alongside the post state. -/
def CommandSubscriber.process_ctrl_payload (sub : CommandSubscriber)
    (s : SubscriberState) (p : CtrlPayload) (now_wall : ℚ) :
    SubscriberState × (ℚ × ℚ) :=
  let s1 : SubscriberState :=
    match p.seq with
    | some n => { s with last_seq := some n }
    | none => s
  let v := sub.converter.to_velocity p.command
    (some (p.cmd_throttle.getD 0)) (some (p.cmd_steer.getD 0))
    (some (p.cmd_brake.getD 0)) p.estop
  ({ s1 with last_publish_wall := now_wall }, v)

/-- One iteration of `CommandSubscriber._watchdog_loop` from
`src/rpi/bridge/subscriber.py` (the body executed each 0.1 s tick): skip
when the timeout is disabled or `_last_publish_wall ≤ 0`; when the last
publish is at least `command_timeout_sec` old, publish zero velocity
(`publish_zero()` publishes `(0, 0)`) and reset `_last_publish_wall` to 0.
Returns the optional published pair alongside the post state. -/
def CommandSubscriber.watchdog_tick (sub : CommandSubscriber)
    (s : SubscriberState) (now : ℚ) : SubscriberState × Option (ℚ × ℚ) :=
  if sub.command_timeout_sec ≤ 0 then (s, none)
  else if s.last_publish_wall ≤ 0 then (s, none)
  else if sub.command_timeout_sec ≤ now - s.last_publish_wall then
    ({ s with last_publish_wall := 0 }, some (0, 0))
  else (s, none)

end Bridge

/-! ## State payload builder (`src/server/services/state_payload.py`) -/

/-- The mutable fields of `StatePayloadBuilder` that the emit decision and
sequence numbering use: `_state_seq` and `_last_idle_state_emit`
(`_last_timeline_seq` only affects the optional `timeline` block, which no
claim concerns). -/
structure StatePayloadBuilderState where
  state_seq : ℤ
  last_idle_state_emit : ℝ

/-- `StatePayloadBuilder.__init__` / `reset`: `_state_seq = 0`,
`_last_idle_state_emit = 0.0`. -/
def StatePayloadBuilder.reset : StatePayloadBuilderState := ⟨0, 0⟩

/-- The fields of the emitted state payload that the claims mention:
`seq` (from `_next_state_seq`, wrapping at `2^31`) and `sent_at_ms`
(`int(now_wall·1000)`). The pose/velocity/status blocks carry no claim and
are not modelled. -/
structure StatePayloadStub where
  seq : ℤ
  sent_at_ms : ℤ

/-- `StatePayloadBuilder.build` from `src/server/services/state_payload.py`,
restricted to the emit decision, the `_last_idle_state_emit` update and the
payload sequence number: the vehicle snapshot enters through `ctrl_age`
(`none` models the initial `float("inf")`), the clock through `now_wall`.
Returns `none` for the `∅` (`return {}`) case. -/
noncomputable def StatePayloadBuilder.build (s : StatePayloadBuilderState)
    (ctrl_age : Option ℝ) (now_wall : ℝ) :
    Option StatePayloadStub × StatePayloadBuilderState :=
  let idle : Bool :=
    match ctrl_age with
    | none => true
    | some a => if IDLE_STATE_INTERVAL_SEC < a then true else false
  if idle = true ∧ now_wall - s.last_idle_state_emit < IDLE_STATE_INTERVAL_SEC then
    (none, s)
  else
    let seq := (s.state_seq + 1) % (2 ^ 31)
    (some ⟨seq, ⌊now_wall * 1000⌋⟩, ⟨seq, now_wall⟩)

/-- The spec's "idle" predicate: `ctrl_age > IDLE_STATE_INTERVAL_SEC`,
where the never-seen-a-control age `float("inf")` (`none`) exceeds any
bound. -/
def ctrl_age_idle (ctrl_age : Option ℝ) : Prop :=
  match ctrl_age with
  | none => True
  | some a => IDLE_STATE_INTERVAL_SEC < a

/-! ## Manager data-channel ctrl handler
(`src/server/services/conductor_handlers.py`) -/

/-- `SIMPLE_COMMAND_PRESETS` from `src/server/domain/control.py`: Manager
command → `{throttle, steer, brake}` table as a lookup function
(`dict.get`); no entry carries a `"mode"` key. -/
noncomputable def SIMPLE_COMMAND_PRESETS (key : String) : Option (ℝ × ℝ × ℝ) :=
  if key = "IDLE" then some (0, 0, 0.4)
  else if key = "UP" then some (0.9, 0, 0)
  else if key = "DOWN" then some (-0.5, 0, 0)
  else if key = "LEFT" then some (0.6, -0.7, 0)
  else if key = "RIGHT" then some (0.6, 0.7, 0)
  else none

/-- An inbound ctrl message as `DataChannelMessageHandler._handle_ctrl`
reads it: `seq` when present and an `int`, `command` when present and a
`str`, the nested `cmd` dict fields, and the first numeric of
`sent_at_ms`/`ts`/`t` as the client timestamp. -/
structure CtrlMsg where
  seq : Option ℤ
  command : Option String
  cmd_throttle : Option ℝ
  cmd_steer : Option ℝ
  cmd_brake : Option ℝ
  cmd_mode : Option String
  client_ts_ms : Option ℝ

/-- The Python exception that escapes `_handle_ctrl` when an unknown
command string makes `SIMPLE_COMMAND_PRESETS.get` return `None` and the
following `preset.get("throttle", 0.0)` dereferences it. -/
inductive PyError where
  | attributeError

/-- The handler-visible Manager state: the control store plus the two
`StatsTracker` counters the ctrl path touches. -/
structure HandlerState where
  control : ControlStateData
  ctrl_recv : ℕ
  ctrl_drop : ℕ

/-- The tail of `_handle_ctrl` shared by both command forms: build the
`ControlSnapshot` (with `received_at = now_mono`,
`client_timestamp_ms = int(...)`, `manager_recv_at_ms =
int(now_wall*1000)`, `latency_ms = now_wall*1000 - client_ts`), call
`update_if_new`, and bump the drop or recv counter. -/
noncomputable def handle_ctrl_store (st : HandlerState) (seq : ℤ)
    (throttle steer brake : ℝ) (mode : String) (now_mono now_wall : ℝ)
    (client_ts_ms : Option ℝ) : HandlerState :=
  let latency_ms : Option ℝ := client_ts_ms.map (fun ts => now_wall * 1000 - ts)
  let snapshot : ControlSnapshot :=
    ⟨seq, throttle, steer, brake, mode, now_mono,
      client_ts_ms.map (fun ts => ⌊ts⌋), some ⌊now_wall * 1000⌋⟩
  let r := update_if_new st.control snapshot latency_ms (some now_wall)
  if r.1 = true then ⟨r.2, st.ctrl_recv + 1, st.ctrl_drop⟩
  else ⟨r.2, st.ctrl_recv, st.ctrl_drop + 1⟩

/-- `DataChannelMessageHandler._handle_ctrl` from
`src/server/services/conductor_handlers.py`.

Control flow of the source: a missing or non-integer `seq` logs and
returns; a string `command` is resolved through
`SIMPLE_COMMAND_PRESETS.get(command.upper())` and the result is
dereferenced with `preset.get(...)` with **no `None` guard**, so an
unknown command raises `AttributeError`; a non-string command falls back
to the clamped `cmd` dict values. -/
noncomputable def handle_ctrl (st : HandlerState) (msg : CtrlMsg)
    (now_mono now_wall : ℝ) : Except PyError HandlerState :=
  match msg.seq with
  | none => .ok st
  | some seq =>
      match msg.command with
      | some command =>
          match SIMPLE_COMMAND_PRESETS (pyUpper command) with
          | none => .error .attributeError
          | some preset =>
              .ok (handle_ctrl_store st seq
                (clamp preset.1 (-1) 1) (clamp preset.2.1 (-1) 1)
                (clamp preset.2.2 0 1) "arcade" now_mono now_wall
                msg.client_ts_ms)
      | none =>
          .ok (handle_ctrl_store st seq
            (clamp (msg.cmd_throttle.getD 0) (-1) 1)
            (clamp (msg.cmd_steer.getD 0) (-1) 1)
            (clamp (msg.cmd_brake.getD 0) 0 1)
            (msg.cmd_mode.getD "arcade") now_mono now_wall
            msg.client_ts_ms)

/-- The C5 failing input: `{"t":"ctrl","seq":1,"command":"FOO"}`. -/
def c5_msg : CtrlMsg := ⟨some 1, some "FOO", none, none, none, none, none⟩

/-- A fresh handler state (empty store, zero counters). -/
def c5_state : HandlerState := ⟨ControlState.init, 0, 0⟩

/-! ## MQTT ctrl transport (`src/rpi/transport/mqtt_server.py`) -/

/-- The observable outcome of one `MQTTServerTransport._on_message`
delivery: how many times the registered ctrl callback runs, and whether
the handler finishes without dropping into an `except` arm. -/
structure MqttOutcome where
  callback_invocations : ℕ
  completed : Bool

/-- `MQTTServerTransport._on_message` from
`src/rpi/transport/mqtt_server.py`, traced branch by branch.

The first `try` block decodes UTF-8, parses JSON **and already invokes
`self._ctrl_callback(data)`**; any exception there (bad UTF-8, bad JSON,
an unregistered `None` callback, or the callback itself raising) is
swallowed with a "not utf-8; dropping" log and a return.  When the first
block succeeds, the body re-parses the same text (which can no longer
fail), checks that a callback is registered, and invokes it a second time
inside the exception guard.  Inputs: whether the frame decodes as UTF-8
JSON, whether a callback is registered, and whether the (deterministic)
callback raises. -/
def mqtt_on_message (frame_decodes callback_registered callback_raises : Bool) :
    MqttOutcome :=
  if frame_decodes = false then ⟨0, false⟩
  else if callback_registered = false then ⟨0, false⟩
  else if callback_raises = true then ⟨1, false⟩
  else ⟨2, true⟩

/-! ## Theorems -/

/-- The translation of `wrap_angle`'s loop is faithful: the result lies in
`(-π, π]` and differs from the input by an integer multiple of `2π`, which
pins down the loop's output uniquely. -/
theorem wrap_angle_eq_loop_spec (rad : ℝ) :
    wrap_angle rad ∈ Set.Ioc (-Real.pi) Real.pi ∧
      ∃ k : ℤ, rad = wrap_angle rad + k • (2 * Real.pi) := by
  have h := toIocMod_mem_Ioc Real.two_pi_pos (-Real.pi) rad
  have hmem : wrap_angle rad ∈ Set.Ioc (-Real.pi) Real.pi := by
    have : -Real.pi + 2 * Real.pi = Real.pi := by ring
    simpa [wrap_angle, this] using h
  refine ⟨hmem, ?_⟩
  have := (toIocMod_eq_iff Real.two_pi_pos (a := -Real.pi) (b := rad)
    (c := toIocMod Real.two_pi_pos (-Real.pi) rad)).mp rfl
  simpa [wrap_angle] using this.2

/-- `wrap_angle` is the identity on `(-π, π]` (neither loop runs). -/
theorem wrap_angle_eq_self {rad : ℝ} (h : rad ∈ Set.Ioc (-Real.pi) Real.pi) :
    wrap_angle rad = rad := by
  rw [wrap_angle, toIocMod_eq_iff Real.two_pi_pos]
  constructor
  · have : -Real.pi + 2 * Real.pi = Real.pi := by ring
    rw [this]
    exact h
  · exact ⟨0, by simp⟩

theorem le_clamp {α : Type} [LinearOrder α] (value low high : α)
    (h : low ≤ high) : low ≤ clamp value low high := by
  unfold clamp
  split_ifs with h1 h2
  · exact le_refl _
  · exact h
  · exact not_lt.mp h1

theorem clamp_le {α : Type} [LinearOrder α] (value low high : α)
    (h : low ≤ high) : clamp value low high ≤ high := by
  unfold clamp
  split_ifs with h1 h2
  · exact h
  · exact le_refl _
  · exact not_lt.mp h2

theorem abs_clamp_le {M : ℝ} (hM : 0 ≤ M) (v : ℝ) : |clamp v (-M) M| ≤ M :=
  abs_le.mpr ⟨le_clamp v (-M) M (by linarith), clamp_le v (-M) M (by linarith)⟩

theorem clamp_eq_high {v low high : ℝ} (hv : high ≤ v) (hlh : low ≤ high) :
    clamp v low high = high := by
  unfold clamp
  split_ifs with h1 h2
  · linarith
  · rfl
  · linarith

/-- A slew-limited move from `w` toward `t` stays inside any symmetric bound
containing both endpoints. -/
theorem abs_add_clamp_le {w t slew M : ℝ} (hs : 0 < slew)
    (hw : |w| ≤ M) (ht : |t| ≤ M) : |w + clamp (t - w) (-slew) slew| ≤ M := by
  rw [abs_le] at hw ht ⊢
  unfold clamp
  split_ifs with h1 h2
  · constructor <;> linarith
  · constructor <;> linarith
  · constructor <;> linarith

/-- The effective steer never exceeds the raw steer in magnitude. -/
theorem abs_effective_steer_le {c : ControlSnapshot} (now : ℝ)
    (h : |c.steer| ≤ 1) : |(effective_ctrl (some c) now).2.1| ≤ 1 := by
  simp only [effective_ctrl]
  split_ifs with h1
  · simpa using h
  · simp only
    have h0 : (0 : ℝ) ≤ clamp ((c.age now - CTRL_HOLD_SEC) / CTRL_DAMP_SEC) 0 1 :=
      le_clamp _ 0 1 (by norm_num)
    have h1' : clamp ((c.age now - CTRL_HOLD_SEC) / CTRL_DAMP_SEC) 0 1 ≤ 1 :=
      clamp_le _ 0 1 (by norm_num)
    rw [abs_mul]
    have : |1 - clamp ((c.age now - CTRL_HOLD_SEC) / CTRL_DAMP_SEC) 0 1| ≤ 1 := by
      rw [abs_of_nonneg (by linarith)]
      linarith
    nlinarith [abs_nonneg c.steer]

/-- C2: starting from any state satisfying the documented invariants
(`|vx| ≤ MAX_SPEED`, `|wz| ≤ YAW_RATE_MAX`, `yaw ∈ (-π, π]`) and stepping
with any control snapshot whose steer is in `[-1, 1]` (or with no snapshot),
any `dt > 0` and any `now`, the state after `VehicleModel.step` satisfies
the same invariants. -/
theorem vehicle_step_preserves_invariants (s : VehicleState)
    (ctrl : Option ControlSnapshot) (dt now : ℝ)
    (hvx : |s.vx| ≤ VehicleModel.MAX_SPEED)
    (hwz : |s.wz| ≤ VehicleModel.YAW_RATE_MAX)
    (hyaw : s.yaw ∈ Set.Ioc (-Real.pi) Real.pi)
    (hsteer : ∀ c ∈ ctrl, |c.steer| ≤ 1)
    (hdt : 0 < dt) :
    |(VehicleModel.step s ctrl dt now).vx| ≤ VehicleModel.MAX_SPEED ∧
      |(VehicleModel.step s ctrl dt now).wz| ≤ VehicleModel.YAW_RATE_MAX ∧
      (VehicleModel.step s ctrl dt now).yaw ∈ Set.Ioc (-Real.pi) Real.pi := by
  refine ⟨?_, ?_, ?_⟩
  · simp only [VehicleModel.step]
    exact abs_clamp_le (by norm_num [VehicleModel.MAX_SPEED]) _
  · cases ctrl with
    | none =>
        simp only [VehicleModel.step, Option.isSome_none, Bool.false_eq_true,
          if_false, Option.isNone_none, if_true]
        split_ifs with h1
        · norm_num [VehicleModel.YAW_RATE_MAX]
        · have h0 : (0 : ℝ) ≤ clamp (VehicleModel.ANGULAR_DAMP * dt) 0 1 :=
            le_clamp _ 0 1 (by norm_num)
          have h1' : clamp (VehicleModel.ANGULAR_DAMP * dt) 0 1 ≤ 1 :=
            clamp_le _ 0 1 (by norm_num)
          rw [abs_mul, abs_of_nonneg (by linarith : (0:ℝ) ≤ 1 - clamp (VehicleModel.ANGULAR_DAMP * dt) 0 1)]
          nlinarith [abs_nonneg s.wz]
    | some c =>
        have hst : |(effective_ctrl (some c) now).2.1| ≤ 1 :=
          abs_effective_steer_le now (hsteer c rfl)
        simp only [VehicleModel.step, Option.isSome_some, if_true]
        split_ifs with h1
        · norm_num [VehicleModel.YAW_RATE_MAX]
        · refine abs_add_clamp_le
            (mul_pos (by norm_num [VehicleModel.YAW_SLEW]) hdt) hwz ?_
          rw [abs_mul]
          have : |VehicleModel.YAW_RATE_MAX| = VehicleModel.YAW_RATE_MAX := by
            norm_num [VehicleModel.YAW_RATE_MAX]
          rw [this]
          exact mul_le_of_le_one_left
            (by norm_num [VehicleModel.YAW_RATE_MAX]) hst
  · simp only [VehicleModel.step]
    exact (wrap_angle_eq_loop_spec _).1

/-- C2 witness: the invariant-preservation theorem applied at the initial
state with no control snapshot, `dt = 1`, `now = 0`. -/
theorem vehicle_step_preserves_invariants_witness :
    (|VehicleModel.init.vx| ≤ VehicleModel.MAX_SPEED ∧
      |VehicleModel.init.wz| ≤ VehicleModel.YAW_RATE_MAX ∧
      VehicleModel.init.yaw ∈ Set.Ioc (-Real.pi) Real.pi ∧ (0:ℝ) < 1) ∧
    (|(VehicleModel.step VehicleModel.init none 1 0).vx| ≤ VehicleModel.MAX_SPEED ∧
      |(VehicleModel.step VehicleModel.init none 1 0).wz| ≤ VehicleModel.YAW_RATE_MAX ∧
      (VehicleModel.step VehicleModel.init none 1 0).yaw ∈ Set.Ioc (-Real.pi) Real.pi) :=
  ⟨⟨by norm_num [VehicleModel.init, VehicleModel.MAX_SPEED],
    by norm_num [VehicleModel.init, VehicleModel.YAW_RATE_MAX],
    by constructor <;> simp [VehicleModel.init, Real.pi_pos, Real.pi_pos.le],
    by norm_num⟩,
   vehicle_step_preserves_invariants VehicleModel.init none 1 0
     (by norm_num [VehicleModel.init, VehicleModel.MAX_SPEED])
     (by norm_num [VehicleModel.init, VehicleModel.YAW_RATE_MAX])
     (by constructor <;> simp [VehicleModel.init, Real.pi_pos, Real.pi_pos.le])
     (by simp)
     (by norm_num)⟩

/-- C6: for a present control snapshot `step`'s effective command equals the
raw snapshot values while `age ≤ CTRL_HOLD_SEC`; beyond that, throttle and
steer are scaled by `1 - decay` with `decay = clamp((age - 0.2)/1.0, 0, 1)`
and the brake becomes `max(ctrl.brake, decay)`; for `age ≥ 1.2 s` the
effective throttle and steer are exactly `0` and the effective brake is
`max(ctrl.brake, 1)`. -/
theorem vehicle_step_effective_ctrl_decay (c : ControlSnapshot) (now : ℝ) :
    (c.age now ≤ CTRL_HOLD_SEC →
      effective_ctrl (some c) now = (c.throttle, c.steer, c.brake, some (c.age now))) ∧
    (CTRL_HOLD_SEC < c.age now →
      effective_ctrl (some c) now =
        (c.throttle * (1 - clamp ((c.age now - CTRL_HOLD_SEC) / CTRL_DAMP_SEC) 0 1),
          c.steer * (1 - clamp ((c.age now - CTRL_HOLD_SEC) / CTRL_DAMP_SEC) 0 1),
          max c.brake (clamp ((c.age now - CTRL_HOLD_SEC) / CTRL_DAMP_SEC) 0 1),
          some (c.age now))) ∧
    ((1.2 : ℝ) ≤ c.age now →
      (effective_ctrl (some c) now).1 = 0 ∧
      (effective_ctrl (some c) now).2.1 = 0 ∧
      (effective_ctrl (some c) now).2.2.1 = max c.brake 1) := by
  refine ⟨fun h => ?_, fun h => ?_, fun h => ?_⟩
  · simp only [effective_ctrl, if_pos h]
  · simp only [effective_ctrl, if_neg (not_le.mpr h)]
  · have hgt : CTRL_HOLD_SEC < c.age now := by
      rw [CTRL_HOLD_SEC]; linarith
    have hdecay : clamp ((c.age now - CTRL_HOLD_SEC) / CTRL_DAMP_SEC) 0 1 = 1 := by
      apply clamp_eq_high _ (by norm_num)
      rw [CTRL_HOLD_SEC, CTRL_DAMP_SEC]
      have h1 : (1.0 : ℝ) = 1 := by norm_num
      rw [h1, div_one]
      linarith
    simp only [effective_ctrl, if_neg (not_le.mpr hgt), hdecay]
    norm_num

/-- C6 witness: a 1.5 s old snapshot (received at 0, inspected at 1.5) is
past the full decay window, so throttle and steer vanish and the brake is
raised to 1. -/
theorem vehicle_step_effective_ctrl_decay_witness :
    ((1.2 : ℝ) ≤ ControlSnapshot.age ⟨1, 0.9, 0.5, 0.3, "arcade", 0, none, none⟩ 1.5) ∧
    ((effective_ctrl (some ⟨1, 0.9, 0.5, 0.3, "arcade", 0, none, none⟩) 1.5).1 = 0 ∧
      (effective_ctrl (some ⟨1, 0.9, 0.5, 0.3, "arcade", 0, none, none⟩) 1.5).2.1 = 0 ∧
      (effective_ctrl (some ⟨1, 0.9, 0.5, 0.3, "arcade", 0, none, none⟩) 1.5).2.2.1 =
        max (0.3 : ℝ) 1) :=
  ⟨by norm_num [ControlSnapshot.age],
   (vehicle_step_effective_ctrl_decay ⟨1, 0.9, 0.5, 0.3, "arcade", 0, none, none⟩ 1.5).2.2
     (by norm_num [ControlSnapshot.age])⟩

/-- C1 fails on the code: `estop()` does latch the flag and zero `vx` and
`wz`, and `step` keeps `vx = 0`, but `step` does not zero the steer input
while estopped, so one 1/60 s step with a full-steer snapshot leaves
`wz = 1/10 ≠ 0` while `estop_active` is still true. -/
theorem vehicle_estop_step_wz_nonzero :
    c1_after_estop.estop_active = true ∧
    c1_after_estop.vx = 0 ∧ c1_after_estop.wz = 0 ∧
    c1_after_step.estop_active = true ∧
    c1_after_step.vx = 0 ∧
    c1_after_step.wz = 1 / 10 ∧ c1_after_step.wz ≠ 0 := by
  have hestop : c1_after_estop.estop_active = true ∧
      c1_after_estop.vx = 0 ∧ c1_after_estop.wz = 0 := by
    refine ⟨rfl, rfl, rfl⟩
  have heff : effective_ctrl (some c1_ctrl) 0 = (0, 1, 0, some 0) := by
    simp only [effective_ctrl, c1_ctrl, ControlSnapshot.age]
    norm_num [CTRL_HOLD_SEC]
  have hvx0 : c1_after_estop.vx = 0 := rfl
  have hwz0 : c1_after_estop.wz = 0 := rfl
  have hstep : c1_after_step.vx = 0 ∧ c1_after_step.wz = 1 / 10 := by
    unfold c1_after_step VehicleModel.step
    rw [heff]
    simp only [hvx0, hwz0]
    norm_num [clamp, copysign, abs_of_nonneg, VehicleModel.MAX_ACCEL, VehicleModel.MAX_SPEED,
      VehicleModel.YAW_RATE_MAX, VehicleModel.YAW_SLEW,
      VehicleModel.BRAKE_DECEL, VehicleModel.COAST_DECEL,
      VehicleModel.IDLE_DECEL, VehicleModel.ANGULAR_DAMP, c1_after_estop,
      VehicleModel.estop, VehicleModel.init]
  exact ⟨hestop.1, hestop.2.1, hestop.2.2, rfl, hstep.1, hstep.2,
    by rw [hstep.2]; norm_num⟩

/-- C3: `update_if_new` returns `false` and leaves the stored triple
unchanged exactly when a snapshot is already stored and the incoming `seq`
does not exceed the stored one; in every other case (including an empty
store, for any `seq`) it replaces all three stored values with the
arguments and returns `true`; and an accepted update over a non-empty store
strictly increases the stored `seq`. -/
theorem control_state_update_if_new_spec (st : ControlStateData)
    (snapshot : ControlSnapshot) (latency_ms recv_wall : Option ℝ) :
    ((update_if_new st snapshot latency_ms recv_wall).1 = false ↔
      ∃ cur, st.last_ctrl = some cur ∧ snapshot.seq ≤ cur.seq) ∧
    ((update_if_new st snapshot latency_ms recv_wall).1 = false →
      (update_if_new st snapshot latency_ms recv_wall).2 = st) ∧
    ((update_if_new st snapshot latency_ms recv_wall).1 = true →
      (update_if_new st snapshot latency_ms recv_wall).2 =
        ⟨some snapshot, latency_ms, recv_wall⟩) ∧
    ((update_if_new st snapshot latency_ms recv_wall).1 = true →
      ∀ cur, st.last_ctrl = some cur → cur.seq < snapshot.seq) := by
  cases hcur : st.last_ctrl with
  | none =>
      simp only [update_if_new, hcur]
      refine ⟨?_, ?_, ?_, ?_⟩
      · simp
      · simp
      · intro _; trivial
      · intro _ cur hc; simp at hc
  | some cur =>
      simp only [update_if_new, hcur]
      by_cases hle : snapshot.seq ≤ cur.seq
      · rw [if_pos hle]
        refine ⟨?_, ?_, ?_, ?_⟩
        · simp only [true_iff]
          exact ⟨cur, rfl, hle⟩
        · intro _; rfl
        · intro h; simp at h
        · intro h; simp at h
      · rw [if_neg hle]
        refine ⟨?_, ?_, ?_, ?_⟩
        · simp only [Bool.true_eq_false, false_iff]
          rintro ⟨cur', hc, hle'⟩
          injection hc with h
          subst h
          exact hle hle'
        · intro h; simp at h
        · intro _; rfl
        · intro _ cur' hc
          injection hc with h
          subst h
          exact not_le.mp hle

/-- C3 witness: replaying `seq = 5` over a store holding `seq = 5` is
rejected and preserves the store; `seq = 6` is accepted, replaces all three
fields, and strictly increases the stored `seq`. -/
theorem control_state_update_if_new_witness :
    (update_if_new c3_state c3_snap5 none none).1 = false ∧
    (update_if_new c3_state c3_snap5 none none).2 = c3_state ∧
    (update_if_new c3_state c3_snap6 (some 12) (some 3)).2 =
      ⟨some c3_snap6, some 12, some 3⟩ ∧
    c3_snap5.seq < c3_snap6.seq :=
  ⟨(control_state_update_if_new_spec c3_state c3_snap5 none none).1.mpr
      ⟨c3_snap5, rfl, le_refl _⟩,
   (control_state_update_if_new_spec c3_state c3_snap5 none none).2.1 rfl,
   (control_state_update_if_new_spec c3_state c3_snap6 (some 12) (some 3)).2.2.1 rfl,
   (control_state_update_if_new_spec c3_state c3_snap6 (some 12) (some 3)).2.2.2
      rfl c3_snap5 rfl⟩

/-- C4: `to_velocity` returns `(0, 0)` exactly on estop or when the
effective brake (in the spec's sense: preset brake for a recognised command
string, otherwise the raw argument with absent = 0) reaches
`brake_threshold`, and otherwise returns the clamped effective throttle and
steer scaled by the two speed limits. -/
theorem converter_to_velocity_spec (conv : Bridge.CommandConverter)
    (command : Option String) (throttle steer brake : Option ℚ)
    (estop_active : Bool) :
    conv.to_velocity command throttle steer brake estop_active =
      (if estop_active = true ∨
          conv.brake_threshold ≤ (Bridge.spec_effective_triple command throttle steer brake).2.2
        then ((0 : ℚ), (0 : ℚ))
        else (Bridge.clamp (Bridge.spec_effective_triple command throttle steer brake).1 (-1) 1 *
                conv.max_linear_speed,
              Bridge.clamp (Bridge.spec_effective_triple command throttle steer brake).2.1 (-1) 1 *
                conv.max_angular_speed)) := by
  cases command with
  | none => rfl
  | some cmd =>
      by_cases hempty : cmd = ""
      · subst hempty
        rfl
      · simp only [Bridge.CommandConverter.to_velocity, Bridge.spec_effective_triple,
          ne_eq, hempty, not_false_eq_true, if_true]

/-- Evaluation fact: `"idle".upper() = "IDLE"`. -/
theorem pyUpper_idle : pyUpper "idle" = "IDLE" := by decide

/-- C4 witness: the theorem applied to the recognised preset `"idle"`
(case-insensitive, brake 0.4 ≥ threshold 0.1 ⇒ `(0,0)`) — both sides
evaluate to `(0, 0)`. -/
theorem converter_to_velocity_spec_witness :
    Bridge.CommandConverter.to_velocity ⟨3/10, -3/10, 1/10⟩
        (some "idle") none none none false = (0, 0) :=
  (converter_to_velocity_spec ⟨3/10, -3/10, 1/10⟩
      (some "idle") none none none false).trans
    (by norm_num [Bridge.spec_effective_triple, Bridge.COMMAND_PRESETS, pyUpper_idle])

/-- C10 (implicit): a command string absent from the Bridge preset table
does not raise and is not treated as `IDLE`: `to_velocity` behaves exactly
as if no command had been given, falling back to the raw keyword values; in
particular an unrecognised command with no numeric fields and no estop
yields `(0, 0)` (whatever the threshold: either the zero brake trips it, or
zero throttle and steer scale to zero). -/
theorem converter_unknown_command_fallback (conv : Bridge.CommandConverter)
    (cmd : String) (throttle steer brake : Option ℚ) (estop_active : Bool)
    (hunknown : Bridge.COMMAND_PRESETS (pyUpper cmd) = none) :
    conv.to_velocity (some cmd) throttle steer brake estop_active =
        conv.to_velocity none throttle steer brake estop_active ∧
      conv.to_velocity (some cmd) none none none false = (0, 0) := by
  constructor
  · by_cases hempty : cmd = ""
    · subst hempty
      rfl
    · simp only [Bridge.CommandConverter.to_velocity, ne_eq, hempty,
        not_false_eq_true, if_true, hunknown]
  · by_cases hempty : cmd = ""
    · subst hempty
      simp only [Bridge.CommandConverter.to_velocity]
      norm_num [Bridge.clamp]
    · simp only [Bridge.CommandConverter.to_velocity, ne_eq, hempty,
        not_false_eq_true, if_true, hunknown]
      norm_num [Bridge.clamp]

/-- C10 witness: the fallback theorem applied to the unrecognised command
`"FOO"` with the Bridge's default configuration. -/
theorem converter_unknown_command_fallback_witness :
    Bridge.COMMAND_PRESETS (pyUpper "FOO") = none ∧
      (Bridge.CommandConverter.to_velocity ⟨3/10, -3/10, 1/10⟩
          (some "FOO") (some (1/2)) (some (1/4)) none true =
        Bridge.CommandConverter.to_velocity ⟨3/10, -3/10, 1/10⟩
          none (some (1/2)) (some (1/4)) none true ∧
       Bridge.CommandConverter.to_velocity ⟨3/10, -3/10, 1/10⟩
          (some "FOO") none none none false = (0, 0)) :=
  ⟨by decide,
   converter_unknown_command_fallback ⟨3/10, -3/10, 1/10⟩ "FOO"
     (some (1/2)) (some (1/4)) none true (by decide)⟩

/-- C7: the watchdog publishes zero at most once per starvation episode:
a tick with `command_timeout_sec > 0`, `last_publish_wall > 0` and
`now - last_publish_wall ≥ command_timeout_sec` publishes `(0,0)` and
resets `last_publish_wall` to 0; a tick with `last_publish_wall = 0`
(including the initial state, before any command) publishes nothing; hence
the tick directly after a publishing tick never publishes; and
`process_ctrl_payload` always publishes and re-stamps `last_publish_wall`
with the current wall time. -/
theorem subscriber_watchdog_single_zero (sub : Bridge.CommandSubscriber)
    (s : Bridge.SubscriberState) (now : ℚ) :
    (0 < sub.command_timeout_sec → 0 < s.last_publish_wall →
      sub.command_timeout_sec ≤ now - s.last_publish_wall →
      sub.watchdog_tick s now = ({ s with last_publish_wall := 0 }, some (0, 0))) ∧
    (s.last_publish_wall = 0 → (sub.watchdog_tick s now).2 = none) ∧
    (∀ now' : ℚ, (sub.watchdog_tick s now).2.isSome = true →
      (sub.watchdog_tick (sub.watchdog_tick s now).1 now').2 = none) ∧
    (∀ p now', ((sub.process_ctrl_payload s p now').1).last_publish_wall = now') := by
  refine ⟨fun ht hw hage => ?_, fun hzero => ?_, fun now' hpub => ?_, fun p now' => ?_⟩
  · rw [Bridge.CommandSubscriber.watchdog_tick,
      if_neg (not_le.mpr ht), if_neg (not_le.mpr hw), if_pos hage]
  · rw [Bridge.CommandSubscriber.watchdog_tick]
    split_ifs <;> simp_all
  · by_cases h1 : sub.command_timeout_sec ≤ 0
    · rw [Bridge.CommandSubscriber.watchdog_tick, if_pos h1] at hpub
      simp at hpub
    · by_cases h2 : s.last_publish_wall ≤ 0
      · rw [Bridge.CommandSubscriber.watchdog_tick, if_neg h1, if_pos h2] at hpub
        simp at hpub
      · by_cases h3 : sub.command_timeout_sec ≤ now - s.last_publish_wall
        · have hstate : (sub.watchdog_tick s now).1 =
              { s with last_publish_wall := 0 } := by
            rw [Bridge.CommandSubscriber.watchdog_tick,
              if_neg h1, if_neg h2, if_pos h3]
          rw [hstate, Bridge.CommandSubscriber.watchdog_tick, if_neg h1]
          simp
        · rw [Bridge.CommandSubscriber.watchdog_tick,
            if_neg h1, if_neg h2, if_neg h3] at hpub
          simp at hpub
  · rw [Bridge.CommandSubscriber.process_ctrl_payload]

/-- C7 witness: timeout 1/2 s, last publish at wall time 1, watchdog tick
at wall time 2: the tick publishes `(0,0)` and resets the stamp; the next
tick publishes nothing; an initial state publishes nothing; processing a
payload at wall time 7 re-stamps. -/
theorem subscriber_watchdog_single_zero_witness :
    (Bridge.CommandSubscriber.watchdog_tick ⟨⟨3/10, -3/10, 1/10⟩, 1/2⟩
        ⟨some 4, 1⟩ 2 = (⟨some 4, 0⟩, some (0, 0))) ∧
    ((Bridge.CommandSubscriber.watchdog_tick ⟨⟨3/10, -3/10, 1/10⟩, 1/2⟩
        Bridge.SubscriberState.init 2).2 = none) ∧
    ((Bridge.CommandSubscriber.process_ctrl_payload ⟨⟨3/10, -3/10, 1/10⟩, 1/2⟩
        ⟨some 4, 0⟩ ⟨some 5, none, none, none, none, false⟩ 7).1).last_publish_wall = 7 :=
  ⟨(subscriber_watchdog_single_zero ⟨⟨3/10, -3/10, 1/10⟩, 1/2⟩ ⟨some 4, 1⟩ 2).1
      (by norm_num) (by norm_num) (by norm_num),
   (subscriber_watchdog_single_zero ⟨⟨3/10, -3/10, 1/10⟩, 1/2⟩
      Bridge.SubscriberState.init 2).2.1 rfl,
   (subscriber_watchdog_single_zero ⟨⟨3/10, -3/10, 1/10⟩, 1/2⟩
      ⟨some 4, 0⟩ 2).2.2.2 ⟨some 5, none, none, none, none, false⟩ 7⟩

/-- C8: `build` returns the empty payload exactly when `ctrl_age`
exceeds `IDLE_STATE_INTERVAL_SEC` and less than `IDLE_STATE_INTERVAL_SEC`
of wall time has passed since `_last_idle_state_emit`; that case leaves
the builder state unchanged, every other case stamps
`_last_idle_state_emit := now_wall`; consequently two consecutive
non-empty builds under persisting idleness are at least
`IDLE_STATE_INTERVAL_SEC` apart. -/
theorem state_payload_idle_coalescing (s : StatePayloadBuilderState)
    (ctrl_age : Option ℝ) (now_wall : ℝ) :
    ((StatePayloadBuilder.build s ctrl_age now_wall).1 = none ↔
      ctrl_age_idle ctrl_age ∧
        now_wall - s.last_idle_state_emit < IDLE_STATE_INTERVAL_SEC) ∧
    ((StatePayloadBuilder.build s ctrl_age now_wall).1 = none →
      (StatePayloadBuilder.build s ctrl_age now_wall).2 = s) ∧
    ((StatePayloadBuilder.build s ctrl_age now_wall).1 ≠ none →
      (StatePayloadBuilder.build s ctrl_age now_wall).2.last_idle_state_emit = now_wall) ∧
    (∀ (age' : Option ℝ) (now' : ℝ),
      (StatePayloadBuilder.build s ctrl_age now_wall).1 ≠ none →
      ctrl_age_idle age' →
      (StatePayloadBuilder.build
          (StatePayloadBuilder.build s ctrl_age now_wall).2 age' now').1 ≠ none →
      IDLE_STATE_INTERVAL_SEC ≤ now' - now_wall) := by
  have hidle : ∀ age : Option ℝ,
      ((match age with
        | none => true
        | some a => if IDLE_STATE_INTERVAL_SEC < a then true else false) = true) ↔
        ctrl_age_idle age := by
    intro age
    cases age with
    | none => simp [ctrl_age_idle]
    | some a =>
        simp only [ctrl_age_idle]
        split_ifs with h <;> simp [h]
  have hmain : ∀ (st : StatePayloadBuilderState) (age : Option ℝ) (t : ℝ),
      ((StatePayloadBuilder.build st age t).1 = none ↔
        ctrl_age_idle age ∧ t - st.last_idle_state_emit < IDLE_STATE_INTERVAL_SEC) ∧
      ((StatePayloadBuilder.build st age t).1 = none →
        (StatePayloadBuilder.build st age t).2 = st) ∧
      ((StatePayloadBuilder.build st age t).1 ≠ none →
        (StatePayloadBuilder.build st age t).2.last_idle_state_emit = t) := by
    intro st age t
    simp only [StatePayloadBuilder.build]
    by_cases hc :
        (match age with
          | none => true
          | some a => if IDLE_STATE_INTERVAL_SEC < a then true else false) = true ∧
          t - st.last_idle_state_emit < IDLE_STATE_INTERVAL_SEC
    · rw [if_pos hc]
      refine ⟨?_, fun _ => rfl, fun hne => absurd rfl hne⟩
      simp only [true_iff]
      exact ⟨(hidle age).mp hc.1, hc.2⟩
    · rw [if_neg hc]
      refine ⟨⟨fun h => by simp at h, fun hcontra =>
        (hc ⟨(hidle age).mpr hcontra.1, hcontra.2⟩).elim⟩,
        fun h => by simp at h, fun _ => rfl⟩
  refine ⟨(hmain s ctrl_age now_wall).1, (hmain s ctrl_age now_wall).2.1,
    (hmain s ctrl_age now_wall).2.2, ?_⟩
  intro age' now' h1 hidle' h2
  have hstamp : (StatePayloadBuilder.build s ctrl_age now_wall).2.last_idle_state_emit =
      now_wall := (hmain s ctrl_age now_wall).2.2 h1
  by_contra hlt
  push_neg at hlt
  exact h2 (((hmain _ age' now').1).mpr ⟨hidle', by rw [hstamp]; linarith⟩)

/-- C8 witness: builder at `last_idle_emit = 0`; with `ctrl_age = 6 > 5`,
a build at wall time 3 is skipped and leaves the state unchanged, a build
at wall time 7 emits, and a follow-up idle build emitting at wall time
12.5 is at least 5 s later. -/
theorem state_payload_idle_coalescing_witness :
    ctrl_age_idle (some 6) ∧
    (StatePayloadBuilder.build ⟨0, 0⟩ (some 6) 3).1 = none ∧
    (StatePayloadBuilder.build ⟨0, 0⟩ (some 6) 3).2 = (⟨0, 0⟩ : StatePayloadBuilderState) ∧
    IDLE_STATE_INTERVAL_SEC ≤ (12.5 : ℝ) - 7 :=
  ⟨by norm_num [ctrl_age_idle, IDLE_STATE_INTERVAL_SEC],
   (state_payload_idle_coalescing ⟨0, 0⟩ (some 6) 3).1.mpr
     ⟨by norm_num [ctrl_age_idle, IDLE_STATE_INTERVAL_SEC],
      by norm_num [IDLE_STATE_INTERVAL_SEC]⟩,
   (state_payload_idle_coalescing ⟨0, 0⟩ (some 6) 3).2.1
     ((state_payload_idle_coalescing ⟨0, 0⟩ (some 6) 3).1.mpr
       ⟨by norm_num [ctrl_age_idle, IDLE_STATE_INTERVAL_SEC],
        by norm_num [IDLE_STATE_INTERVAL_SEC]⟩),
   (state_payload_idle_coalescing ⟨0, 0⟩ (some 6) 7).2.2.2 (some 6) 12.5
     (by
       intro h
       have hco := (state_payload_idle_coalescing ⟨0, 0⟩ (some 6) 7).1.mp h
       norm_num [ctrl_age_idle, IDLE_STATE_INTERVAL_SEC] at hco)
     (by norm_num [ctrl_age_idle, IDLE_STATE_INTERVAL_SEC])
     (by
       intro h
       have hco := (state_payload_idle_coalescing
         (StatePayloadBuilder.build ⟨0, 0⟩ (some 6) 7).2 (some 6) 12.5).1.mp h
       have hst := (state_payload_idle_coalescing ⟨0, 0⟩ (some 6) 7).2.2.1
         (by
           intro h2
           have hco2 := (state_payload_idle_coalescing ⟨0, 0⟩ (some 6) 7).1.mp h2
           norm_num [ctrl_age_idle, IDLE_STATE_INTERVAL_SEC] at hco2)
       rw [hst] at hco
       norm_num [ctrl_age_idle, IDLE_STATE_INTERVAL_SEC] at hco)⟩

/-- Evaluation fact: `"FOO".upper() = "FOO"`. -/
theorem pyUpper_FOO : pyUpper "FOO" = "FOO" := by decide

/-- C5 fails on the code: an inbound ctrl message with a valid `seq` and a
command string outside the preset table does not drop with a log — the
missing `None` guard after `SIMPLE_COMMAND_PRESETS.get` makes
`preset.get("throttle", 0.0)` raise `AttributeError`, so `_handle_ctrl`
raises instead of returning (the sibling revision in
`src/server/services/conductor.py` has the `if not preset: return`
guard the spec describes). -/
theorem handler_unknown_command_raises :
    SIMPLE_COMMAND_PRESETS (pyUpper "FOO") = none ∧
      handle_ctrl c5_state c5_msg 0 0 = .error .attributeError := by
  have h1 : SIMPLE_COMMAND_PRESETS (pyUpper "FOO") = none := by
    rw [pyUpper_FOO]
    simp [SIMPLE_COMMAND_PRESETS]
  exact ⟨h1, by simp [handle_ctrl, c5_msg, c5_state, h1]⟩

/-- C9 fails on the code: for a frame that decodes as UTF-8 JSON with a
registered, non-raising callback, `_on_message` invokes the callback twice
(once from the stray call inside the decode `try`, once from the guarded
dispatch below it), not exactly once; invalid frames and raising callbacks
are indeed dropped/suppressed. -/
theorem mqtt_on_message_double_invocation :
    (mqtt_on_message true true false).callback_invocations = 2 ∧
    (mqtt_on_message false true false).callback_invocations = 0 ∧
    (mqtt_on_message true false false).callback_invocations = 0 ∧
    (mqtt_on_message true true true).callback_invocations = 1 := by
  refine ⟨rfl, rfl, rfl, rfl⟩

end AframeSora

